import Mathlib

/-!
Verification of the audio-monitor program (`audio_monitor.py`).

The program watches a directory for newly created audio files, filters them
by extension, transcribes each accepted file through an external client, and
writes the transcript next to the source name in an output directory.

Shallow embedding conventions:
* Python strings (paths, file names, byte buffers, transcripts) are `List Char`.
* `os.path.basename` and `os.path.splitext` are translated from CPython
  (`posixpath.basename`, `genericpath._splitext`).
* `str.lower` / `str.upper` are modelled character-wise by `Char.toLower` /
  `Char.toUpper` (the ASCII case mapping; the allow-set is pure ASCII).
* The filesystem is a map `Path → Option Bytes`; the external transcription
  client is a function `Bytes → Except Detail Response`; an exception raised
  by a step is modelled by the corresponding `none` / `.error` / `Bool` value.
* The per-file pipeline (`transcribe_file`) and the event handler
  (`on_created`) return, besides the emitted outcome records, the trace of
  client calls and the list of performed file writes, so that claims about
  "no client call", "no write" and call ordering can be stated.
-/

namespace AudioMonitor

abbrev Path := List Char
abbrev Bytes := List Char

/-- `ALLOWED_EXTENSIONS = ('.mp3', '.wav', '.flac', '.m4a', '.webm')`. -/
def ALLOWED_EXTENSIONS : List (List Char) :=
  [".mp3".data, ".wav".data, ".flac".data, ".m4a".data, ".webm".data]

/-- `WATCH_DIRECTORY = "/tmp/audio_to_process"`. -/
def WATCH_DIRECTORY : Path := "/tmp/audio_to_process".data

/-- `TRANSCRIPT_DIRECTORY = "/tmp/transcripts"`. -/
def TRANSCRIPT_DIRECTORY : Path := "/tmp/transcripts".data

/-- `os.path.basename`: the suffix after the last path separator. -/
def basename (p : List Char) : List Char :=
  ((p.reverse.takeWhile (fun c => c ≠ '/')).reverse)

/-- The `== extsep` test of `genericpath._splitext`. -/
def isDot (c : Char) : Bool := c = '.'

/-- The `!= extsep` test of `genericpath._splitext`. -/
def notDot (c : Char) : Bool := c ≠ '.'

/-- Index of the last dot of `p`, if any (CPython `p.rfind('.')`). -/
def rfindDot (p : List Char) : Option Nat :=
  match p.reverse.findIdx? isDot with
  | none => none
  | some j => some (p.length - 1 - j)

/-- `os.path.splitext` on a basename (no separator present): split at the last
dot, except that a name consisting only of leading dots before that dot has no
extension (CPython `genericpath._splitext` with `sepIndex = -1`). -/
def splitext (p : List Char) : List Char × List Char :=
  match rfindDot p with
  | none => (p, [])
  | some d =>
      if (p.take d).any notDot then (p.take d, p.drop d)
      else (p, [])

/-- `os.path.splitext(filename)[1].lower() in ALLOWED_EXTENSIONS`
(lines 85–88 of the source). -/
def accepts (filename : List Char) : Bool :=
  ALLOWED_EXTENSIONS.contains ((splitext filename).2.map Char.toLower)

/-- One per-file record `{path, status, detail}` (spec `ProcessingOutcome`);
in the source it is the `[Success]` / `[Ignored]` / `[Error]` console line. -/
inductive Status
  | success
  | ignored
  | error
deriving DecidableEq, Repr

structure Outcome where
  path : Path
  status : Status
  detail : List Char
deriving DecidableEq, Repr

/-- The Deepgram response object, reduced to the field chain
`response.results.channels[0].alternatives[0].transcript`; `none` models a
response in which some link of that chain is missing (an exception when
extracting). -/
structure Response where
  transcript? : Option (List Char)

/-- The external collaborators of one run: the transcription client
(`deepgram.listen.v1.media.transcribe_file`, an exception modelled by
`.error`) and whether a write to a given path succeeds (an `IOError` while
writing modelled by `false`). -/
structure Env where
  client : Bytes → Except (List Char) Response
  writeOk : Path → Bool

/-- The filesystem, as far as reading goes: `none` means `open(path, "rb")`
raises. -/
abbrev FS := Path → Option Bytes

/-- `f"{os.path.splitext(filename)[0]}_transcript.txt"` (line 52). -/
def transcript_filename (filename : List Char) : List Char :=
  (splitext filename).1 ++ "_transcript.txt".data

/-- `os.path.join(TRANSCRIPT_DIRECTORY, transcript_filename)` (line 53). -/
def output_path (filename : List Char) : Path :=
  TRANSCRIPT_DIRECTORY ++ '/' :: transcript_filename filename

/-- Everything observable about handling one event: the emitted outcome
records, the buffers submitted to the client (in call order), and the file
writes performed (in order). -/
structure RunLog where
  outcomes : List Outcome
  clientCalls : List Bytes
  writes : List (Path × List Char)
deriving DecidableEq, Repr

/-- `transcribe_file(filepath, deepgram)` (lines 24–67): read the file, call
the client, extract the transcript, write it to the derived output path; any
exception in those steps is caught by the single (the second is unreachable)
`except Exception` handler and reported as an `[Error]` line. Returns the
emitted outcome, the client calls made, and the writes performed. -/
def transcribe_file (env : Env) (fs : FS) (filepath : Path) :
    Outcome × List Bytes × List (Path × List Char) :=
  let filename := basename filepath
  match fs filepath with
  | none => (⟨filepath, .error, "read failed".data⟩, [], [])
  | some buffer_data =>
    match env.client buffer_data with
    | .error e => (⟨filepath, .error, e⟩, [buffer_data], [])
    | .ok response =>
      match response.transcript? with
      | none => (⟨filepath, .error, "missing transcript field".data⟩,
                 [buffer_data], [])
      | some transcript =>
        let out := output_path filename
        if env.writeOk out then
          (⟨filepath, .success, transcript.take 80⟩, [buffer_data],
           [(out, transcript)])
        else
          (⟨filepath, .error, "write failed".data⟩, [buffer_data], [])

/-- A watchdog filesystem event `{is_directory, src_path}`. -/
structure Event where
  is_directory : Bool
  src_path : Path

/-- `AudioHandler.on_created` (lines 78–97): ignore directory events with no
record at all; otherwise check the lower-cased extension of the basename
against `ALLOWED_EXTENSIONS` and either run `transcribe_file` (the settle
sleep changes no modelled state) or report `[Ignored]`. -/
def on_created (env : Env) (fs : FS) (event : Event) : RunLog :=
  if event.is_directory then ⟨[], [], []⟩
  else
    let filepath := event.src_path
    let filename := basename filepath
    if accepts filename then
      let r := transcribe_file env fs filepath
      ⟨[r.1], r.2.1, r.2.2⟩
    else
      ⟨[⟨filepath, .ignored, []⟩], [], []⟩

/-- Apply a list of writes to the filesystem; `open(path, "w")` truncates, so
each write overwrites whatever the path previously held. -/
def applyWrites (fs : FS) : List (Path × List Char) → FS
  | [] => fs
  | (p, t) :: rest => applyWrites (fun q => if q = p then some t else fs q) rest

/-- The monitor loop as seen through the serialized event stream: watchdog
dispatches events one at a time and `on_created` runs `transcribe_file`
synchronously, so the handler for one event finishes (its log is complete)
before the next event is handled. -/
def runEvents (env : Env) (fs : FS) : List Event → RunLog
  | [] => ⟨[], [], []⟩
  | e :: rest =>
    let l1 := on_created env fs e
    let l2 := runEvents env (applyWrites fs l1.writes) rest
    ⟨l1.outcomes ++ l2.outcomes, l1.clientCalls ++ l2.clientCalls,
     l1.writes ++ l2.writes⟩

/-! Concrete fixtures used by the witness theorems. -/

def sampleWav : Path := "/tmp/audio_to_process/sample.wav".data

def quietWav : Path := "/tmp/audio_to_process/quiet.wav".data

def notesTxt : Path := "/tmp/audio_to_process/notes.txt".data

/-- A client stub that always answers with a fixed transcript. -/
def okEnv : Env := ⟨fun _ => .ok ⟨some "hello world".data⟩, fun _ => true⟩

/-- A client stub that always raises a network error. -/
def errEnv : Env := ⟨fun _ => .error "network error".data, fun _ => true⟩

/-- A filesystem holding the two sample audio files. -/
def sampleFS : FS := fun p =>
  if p = sampleWav then some "RIFFdata".data
  else if p = quietWav then some "RIFFquiet".data
  else none

/-- One of the four fallible steps of `transcribe_file` raises: the read
fails, the client call fails, the transcript field chain is missing, or the
write fails. -/
def stageFails (env : Env) (fs : FS) (filepath : Path) : Prop :=
  fs filepath = none ∨
  ∃ buf, fs filepath = some buf ∧
    ((∃ e, env.client buf = .error e) ∨
     ∃ r, env.client buf = .ok r ∧
       (r.transcript? = none ∨
        ∃ t, r.transcript? = some t ∧
          env.writeOk (output_path (basename filepath)) = false))

/-! ASCII case-mapping lemmas (Python `str.lower` / `str.upper`). -/

/-- Code point of a valid `Char.ofNat` application. -/
theorem toNat_ofNat_valid (n : Nat) (h : n < 55296) : (Char.ofNat n).toNat = n := by
  rw [Char.ofNat, dif_pos (Or.inl h)]
  simp [Char.ofNatAux, Char.toNat]
  rfl

/-- ASCII case mapping: lowering after uppering agrees with plain lowering. -/
theorem toLower_toUpper (c : Char) : (c.toUpper).toLower = c.toLower := by
  unfold Char.toUpper Char.toLower
  by_cases h : c.toNat ≥ 97 ∧ c.toNat ≤ 122
  · rw [if_pos h]
    have h1 : (Char.ofNat (c.toNat - 32)).toNat = c.toNat - 32 :=
      toNat_ofNat_valid _ (by have := h.2; omega)
    rw [h1]
    rw [if_pos (by omega), if_neg (by omega)]
    have h2 : c.toNat - 32 + 32 = c.toNat := by omega
    rw [h2, Char.ofNat_toNat]
  · rw [if_neg h]

/-- Uppercasing maps the dot character to itself and nothing else to it. -/
theorem toUpper_dot (c : Char) : c.toUpper = '.' ↔ c = '.' := by
  unfold Char.toUpper
  by_cases h : c.toNat ≥ 97 ∧ c.toNat ≤ 122
  · rw [if_pos h]
    constructor
    · intro he
      have h1 : (Char.ofNat (c.toNat - 32)).toNat = c.toNat - 32 :=
        toNat_ofNat_valid _ (by have := h.2; omega)
      rw [he] at h1
      have h2 : ('.' : Char).toNat = 46 := by decide
      omega
    · intro he
      subst he
      simp at h
  · rw [if_neg h]

theorem isDot_toUpper (c : Char) : isDot (Char.toUpper c) = isDot c := by
  unfold isDot
  exact decide_eq_decide.mpr (toUpper_dot c)

theorem notDot_toUpper (c : Char) : notDot (Char.toUpper c) = notDot c := by
  unfold notDot
  exact decide_eq_decide.mpr (not_congr (toUpper_dot c))

/-- The position of the last dot is invariant under ASCII uppercasing. -/
theorem rfindDot_map_toUpper (p : List Char) :
    rfindDot (p.map Char.toUpper) = rfindDot p := by
  unfold rfindDot
  rw [← List.map_reverse, List.findIdx?_map]
  have h : (isDot ∘ Char.toUpper) = isDot := funext isDot_toUpper
  rw [h, List.length_map]

/-- `splitext` commutes with ASCII uppercasing of the name. -/
theorem splitext_map_toUpper (p : List Char) :
    splitext (p.map Char.toUpper)
      = ((splitext p).1.map Char.toUpper, (splitext p).2.map Char.toUpper) := by
  have hpred : (notDot ∘ Char.toUpper) = notDot := funext notDot_toUpper
  unfold splitext
  rw [rfindDot_map_toUpper]
  cases h : rfindDot p with
  | none => rfl
  | some d =>
      dsimp only
      rw [← List.map_take, ← List.map_drop, List.any_map, hpred]
      by_cases hany : (p.take d).any notDot
      · rw [if_pos hany, if_pos hany]
      · rw [if_neg hany, if_neg hany]
        rfl

/-! General lemmas about the pipeline, shared by the claim theorems. -/

theorem transcribe_file_status (env : Env) (fs : FS) (p : Path) :
    (transcribe_file env fs p).1.status = Status.success ∨
    (transcribe_file env fs p).1.status = Status.error := by
  cases hfs : fs p with
  | none => simp [transcribe_file, hfs]
  | some buf =>
      cases hc : env.client buf with
      | error e => simp [transcribe_file, hfs, hc]
      | ok r =>
          cases ht : r.transcript? with
          | none => simp [transcribe_file, hfs, hc, ht]
          | some t =>
              by_cases hw : env.writeOk (output_path (basename p)) = true
              · simp [transcribe_file, hfs, hc, ht, hw]
              · simp [transcribe_file, hfs, hc, ht, hw]

theorem transcribe_file_path (env : Env) (fs : FS) (p : Path) :
    (transcribe_file env fs p).1.path = p := by
  cases hfs : fs p with
  | none => simp [transcribe_file, hfs]
  | some buf =>
      cases hc : env.client buf with
      | error e => simp [transcribe_file, hfs, hc]
      | ok r =>
          cases ht : r.transcript? with
          | none => simp [transcribe_file, hfs, hc, ht]
          | some t =>
              by_cases hw : env.writeOk (output_path (basename p)) = true
              · simp [transcribe_file, hfs, hc, ht, hw]
              · simp [transcribe_file, hfs, hc, ht, hw]

theorem transcribe_file_calls (env : Env) (fs : FS) (p : Path) (buf : Bytes)
    (h : fs p = some buf) : (transcribe_file env fs p).2.1 = [buf] := by
  cases hc : env.client buf with
  | error e => simp [transcribe_file, h, hc]
  | ok r =>
      cases ht : r.transcript? with
      | none => simp [transcribe_file, h, hc, ht]
      | some t =>
          by_cases hw : env.writeOk (output_path (basename p)) = true
          · simp [transcribe_file, h, hc, ht, hw]
          · simp [transcribe_file, h, hc, ht, hw]

theorem transcribe_file_client_error (env : Env) (fs : FS) (p : Path)
    (buf : Bytes) (e : List Char)
    (hf : fs p = some buf) (hc : env.client buf = .error e) :
    transcribe_file env fs p = (⟨p, .error, e⟩, [buf], []) := by
  simp [transcribe_file, hf, hc]

theorem transcribe_file_success (env : Env) (fs : FS) (p : Path) (buf : Bytes)
    (r : Response) (t : List Char)
    (hf : fs p = some buf) (hc : env.client buf = .ok r)
    (ht : r.transcript? = some t)
    (hw : env.writeOk (output_path (basename p)) = true) :
    transcribe_file env fs p
      = (⟨p, .success, t.take 80⟩, [buf], [(output_path (basename p), t)]) := by
  simp [transcribe_file, hf, hc, ht, hw]

theorem on_created_dir (env : Env) (fs : FS) (p : Path) :
    on_created env fs ⟨true, p⟩ = ⟨[], [], []⟩ := rfl

theorem on_created_rejected (env : Env) (fs : FS) (e : Event)
    (hd : e.is_directory = false) (hr : accepts (basename e.src_path) = false) :
    on_created env fs e = ⟨[⟨e.src_path, .ignored, []⟩], [], []⟩ := by
  unfold on_created
  rw [if_neg (by rw [hd]; exact Bool.false_ne_true)]
  dsimp only
  rw [if_neg (by rw [hr]; exact Bool.false_ne_true)]

theorem on_created_accepted (env : Env) (fs : FS) (e : Event)
    (hd : e.is_directory = false) (ha : accepts (basename e.src_path) = true) :
    on_created env fs e
      = ⟨[(transcribe_file env fs e.src_path).1],
         (transcribe_file env fs e.src_path).2.1,
         (transcribe_file env fs e.src_path).2.2⟩ := by
  unfold on_created
  rw [if_neg (by rw [hd]; exact Bool.false_ne_true)]
  dsimp only
  rw [if_pos ha]

theorem runEvents_cons (env : Env) (fs : FS) (e : Event) (rest : List Event) :
    runEvents env fs (e :: rest)
      = ⟨(on_created env fs e).outcomes
           ++ (runEvents env (applyWrites fs (on_created env fs e).writes) rest).outcomes,
         (on_created env fs e).clientCalls
           ++ (runEvents env (applyWrites fs (on_created env fs e).writes) rest).clientCalls,
         (on_created env fs e).writes
           ++ (runEvents env (applyWrites fs (on_created env fs e).writes) rest).writes⟩ := rfl

/-- Whenever some step of `transcribe_file` raises, the run ends with a
single error record for the file, at most one client call, and no write. -/
theorem transcribe_file_fails (env : Env) (fs : FS) (p : Path)
    (hfail : stageFails env fs p) :
    ∃ d cs, transcribe_file env fs p = (⟨p, Status.error, d⟩, cs, [])
      ∧ cs.length ≤ 1 := by
  rcases hfail with hn | ⟨buf, hb, hcase⟩
  · exact ⟨"read failed".data, [], by simp [transcribe_file, hn], by simp⟩
  rcases hcase with ⟨e, hce⟩ | ⟨r, hcr, hrest⟩
  · exact ⟨e, [buf], by simp [transcribe_file, hb, hce], by simp⟩
  rcases hrest with htn | ⟨t, hts, hw⟩
  · exact ⟨"missing transcript field".data, [buf],
      by simp [transcribe_file, hb, hcr, htn], by simp⟩
  · exact ⟨"write failed".data, [buf],
      by simp [transcribe_file, hb, hcr, hts, hw], by simp⟩

/-! The claims. -/

/-- C1: the File Filter accepts a filename exactly when its extension as
split off by `os.path.splitext` — leading dot included — is, lower-cased, a
member of the fixed allow-set; a filename with no extension is rejected; and
acceptance is a pure function of the filename that is invariant under
upper-casing it. -/
theorem C1_file_filter (f : List Char) :
    (accepts f = true ↔ (splitext f).2.map Char.toLower ∈ ALLOWED_EXTENSIONS)
    ∧ ((splitext f).2 = [] → accepts f = false)
    ∧ accepts (f.map Char.toUpper) = accepts f := by
  refine ⟨?_, ?_, ?_⟩
  · unfold accepts
    simp [List.contains]
  · intro h
    unfold accepts
    rw [h]
    decide
  · unfold accepts
    rw [splitext_map_toUpper]
    dsimp only
    rw [List.map_map]
    have h : (Char.toLower ∘ Char.toUpper) = Char.toLower := funext toLower_toUpper
    rw [h]

/-- Witness for C1: `README` has no extension and is rejected; the mixed-case
`Sample.WaV` is accepted and equal in acceptance to its upper-cased form. -/
theorem C1_file_filter_witness :
    ((splitext "README".data).2 = [] ∧ accepts "README".data = false)
    ∧ accepts ("Sample.WaV".data.map Char.toUpper) = accepts "Sample.WaV".data :=
  ⟨⟨by decide, (C1_file_filter "README".data).2.1 (by decide)⟩,
   (C1_file_filter "Sample.WaV".data).2.2⟩

/-- C2: a non-directory event that passes the filter yields exactly one
outcome record, whose status is Success or Error; a non-directory event that
fails the filter yields no write and only Ignored records. -/
theorem C2_exactly_one_outcome (env : Env) (fs : FS) (e : Event)
    (hd : e.is_directory = false) :
    (accepts (basename e.src_path) = true →
       ∃ o, (on_created env fs e).outcomes = [o]
         ∧ (o.status = Status.success ∨ o.status = Status.error)) ∧
    (accepts (basename e.src_path) = false →
       (on_created env fs e).writes = []
         ∧ ∀ o ∈ (on_created env fs e).outcomes, o.status = Status.ignored) := by
  constructor
  · intro ha
    rw [on_created_accepted env fs e hd ha]
    exact ⟨_, rfl, transcribe_file_status env fs e.src_path⟩
  · intro hr
    rw [on_created_rejected env fs e hd hr]
    refine ⟨rfl, ?_⟩
    intro o ho
    simp only [List.mem_singleton] at ho
    subst ho
    rfl

/-- Witness for C2: the accepted `sample.wav` event yields one Success/Error
record; the rejected `notes.txt` event yields no write and only Ignored. -/
theorem C2_exactly_one_outcome_witness :
    (∃ o, (on_created okEnv sampleFS ⟨false, sampleWav⟩).outcomes = [o]
       ∧ (o.status = Status.success ∨ o.status = Status.error))
    ∧ ((on_created okEnv sampleFS ⟨false, notesTxt⟩).writes = []
       ∧ ∀ o ∈ (on_created okEnv sampleFS ⟨false, notesTxt⟩).outcomes,
           o.status = Status.ignored) :=
  ⟨(C2_exactly_one_outcome okEnv sampleFS ⟨false, sampleWav⟩ rfl).1 (by decide),
   (C2_exactly_one_outcome okEnv sampleFS ⟨false, notesTxt⟩ rfl).2 (by decide)⟩

/-- C3: on a successful transcription the pipeline performs exactly one
write, in the configured output directory, at the source filename with its
extension stripped and `_transcript.txt` appended, with content exactly the
transcript returned by the client; and applying that write overwrites
whatever any prior filesystem held at that path. -/
theorem C3_persisting (env : Env) (fs : FS) (filepath : Path)
    (buf : Bytes) (r : Response) (t : List Char)
    (hf : fs filepath = some buf) (hc : env.client buf = .ok r)
    (ht : r.transcript? = some t)
    (hw : env.writeOk (output_path (basename filepath)) = true) :
    (transcribe_file env fs filepath).2.2
      = [(TRANSCRIPT_DIRECTORY ++ '/' ::
            ((splitext (basename filepath)).1 ++ "_transcript.txt".data), t)]
    ∧ ∀ fs0 : FS,
        applyWrites fs0 (transcribe_file env fs filepath).2.2
          (TRANSCRIPT_DIRECTORY ++ '/' ::
            ((splitext (basename filepath)).1 ++ "_transcript.txt".data))
          = some t := by
  have h := transcribe_file_success env fs filepath buf r t hf hc ht hw
  constructor
  · rw [h]
    simp [output_path, transcript_filename]
  · intro fs0
    rw [h]
    simp [applyWrites, output_path, transcript_filename]

/-- Witness for C3: the stubbed client answers `hello world` for
`sample.wav`; the single write lands at `sample_transcript.txt` in the
output directory with exactly that content, overwriting a prior file. -/
theorem C3_persisting_witness :
    (transcribe_file okEnv sampleFS sampleWav).2.2
      = [(TRANSCRIPT_DIRECTORY ++ '/' ::
            ((splitext (basename sampleWav)).1 ++ "_transcript.txt".data),
          "hello world".data)]
    ∧ applyWrites (fun _ => some "OLD".data)
        (transcribe_file okEnv sampleFS sampleWav).2.2
        (TRANSCRIPT_DIRECTORY ++ '/' ::
          ((splitext (basename sampleWav)).1 ++ "_transcript.txt".data))
        = some "hello world".data :=
  ⟨(C3_persisting okEnv sampleFS sampleWav "RIFFdata".data
      ⟨some "hello world".data⟩ "hello world".data (by decide) rfl rfl rfl).1,
   (C3_persisting okEnv sampleFS sampleWav "RIFFdata".data
      ⟨some "hello world".data⟩ "hello world".data (by decide) rfl rfl rfl).2
     (fun _ => some "OLD".data)⟩

/-- C4: a rejected non-directory event causes zero client calls, zero
writes, exactly an Ignored record — and the handler never touches the
filesystem (its result is the same under every filesystem). -/
theorem C4_rejected_no_effects (env : Env) (fs : FS) (e : Event)
    (hd : e.is_directory = false)
    (hr : accepts (basename e.src_path) = false) :
    on_created env fs e = ⟨[⟨e.src_path, Status.ignored, []⟩], [], []⟩
    ∧ ∀ fs2 : FS, on_created env fs2 e = on_created env fs e := by
  refine ⟨on_created_rejected env fs e hd hr, ?_⟩
  intro fs2
  rw [on_created_rejected env fs e hd hr, on_created_rejected env fs2 e hd hr]

/-- Witness for C4: the `notes.txt` event is reported Ignored with no call
and no write, even though client and file are available. -/
theorem C4_rejected_no_effects_witness :
    on_created okEnv sampleFS ⟨false, notesTxt⟩
      = ⟨[⟨notesTxt, Status.ignored, []⟩], [], []⟩ :=
  (C4_rejected_no_effects okEnv sampleFS ⟨false, notesTxt⟩ rfl (by decide)).1

/-- C5: whichever of the four steps (read, client call, transcript
extraction, write) raises, the exception is caught by the one uniform
handler: the run emits a single Error record carrying a detail, makes at
most one client call (never a retry), and the monitor goes on to process the
remaining events. -/
theorem C5_uniform_error_handling (env : Env) (fs : FS) (e : Event)
    (rest : List Event) (hd : e.is_directory = false)
    (ha : accepts (basename e.src_path) = true)
    (hfail : stageFails env fs e.src_path) :
    ∃ d, (on_created env fs e).outcomes = [⟨e.src_path, Status.error, d⟩]
      ∧ (on_created env fs e).clientCalls.length ≤ 1
      ∧ (runEvents env fs (e :: rest)).outcomes
          = ⟨e.src_path, Status.error, d⟩ :: (runEvents env fs rest).outcomes := by
  obtain ⟨d, cs, htf, hlen⟩ := transcribe_file_fails env fs e.src_path hfail
  have hoc := on_created_accepted env fs e hd ha
  rw [htf] at hoc
  refine ⟨d, by rw [hoc], by rw [hoc]; exact hlen, ?_⟩
  rw [runEvents_cons, hoc]
  rfl

/-- Witness for C5: the network-failing client on `loud.mp3` (content
present) produces one Error record and the `quiet.wav` event after it is
still processed. -/
theorem C5_uniform_error_handling_witness :
    ∃ d, (on_created errEnv sampleFS ⟨false, sampleWav⟩).outcomes
        = [⟨sampleWav, Status.error, d⟩]
      ∧ (on_created errEnv sampleFS ⟨false, sampleWav⟩).clientCalls.length ≤ 1
      ∧ (runEvents errEnv sampleFS
            [⟨false, sampleWav⟩, ⟨false, quietWav⟩]).outcomes
          = ⟨sampleWav, Status.error, d⟩ ::
            (runEvents errEnv sampleFS [⟨false, quietWav⟩]).outcomes :=
  C5_uniform_error_handling errEnv sampleFS ⟨false, sampleWav⟩
    [⟨false, quietWav⟩] rfl (by decide)
    (Or.inr ⟨"RIFFdata".data, by decide,
      Or.inl ⟨"network error".data, rfl⟩⟩)

/-- C6: when the client call for an accepted file raises, nothing is written
— the output directory is exactly as before — and a subsequent event is
processed on the unchanged filesystem, normally. -/
theorem C6_error_leaves_output_unchanged (env : Env) (fs : FS) (e : Event)
    (buf : Bytes) (err : List Char) (rest : List Event)
    (hd : e.is_directory = false) (ha : accepts (basename e.src_path) = true)
    (hf : fs e.src_path = some buf) (hc : env.client buf = .error err) :
    (on_created env fs e).writes = []
    ∧ (∀ q, applyWrites fs (on_created env fs e).writes q = fs q)
    ∧ (runEvents env fs (e :: rest)).outcomes
        = ⟨e.src_path, Status.error, err⟩ :: (runEvents env fs rest).outcomes := by
  have htf := transcribe_file_client_error env fs e.src_path buf err hf hc
  have hoc := on_created_accepted env fs e hd ha
  rw [htf] at hoc
  refine ⟨by rw [hoc], fun q => by rw [hoc]; rfl, ?_⟩
  rw [runEvents_cons, hoc]
  rfl

/-- Witness for C6: `sample.wav` fails on the stubbed network error, nothing
is written, and the following `quiet.wav` event is still handled. -/
theorem C6_error_leaves_output_unchanged_witness :
    (on_created errEnv sampleFS ⟨false, sampleWav⟩).writes = []
    ∧ (runEvents errEnv sampleFS
          [⟨false, sampleWav⟩, ⟨false, quietWav⟩]).outcomes
        = ⟨sampleWav, Status.error, "network error".data⟩ ::
          (runEvents errEnv sampleFS [⟨false, quietWav⟩]).outcomes :=
  ⟨(C6_error_leaves_output_unchanged errEnv sampleFS ⟨false, sampleWav⟩
      "RIFFdata".data "network error".data [⟨false, quietWav⟩]
      rfl (by decide) (by decide) rfl).1,
   (C6_error_leaves_output_unchanged errEnv sampleFS ⟨false, sampleWav⟩
      "RIFFdata".data "network error".data [⟨false, quietWav⟩]
      rfl (by decide) (by decide) rfl).2.2⟩

/-- C7: the transcript path derived for a source filename is the same across
runs (it is a function of the filename alone); two successful runs for the
same filepath write the same single path, and applying both write lists
leaves every other path untouched while the second transcript overwrites
the first. -/
theorem C7_output_path_idempotent (env1 env2 : Env) (fsa fsb : FS) (p : Path)
    (b1 b2 : Bytes) (r1 r2 : Response) (t1 t2 : List Char)
    (h1 : fsa p = some b1) (h2 : env1.client b1 = .ok r1)
    (h3 : r1.transcript? = some t1)
    (h4 : env1.writeOk (output_path (basename p)) = true)
    (h5 : fsb p = some b2) (h6 : env2.client b2 = .ok r2)
    (h7 : r2.transcript? = some t2)
    (h8 : env2.writeOk (output_path (basename p)) = true) :
    (transcribe_file env1 fsa p).2.2 = [(output_path (basename p), t1)]
    ∧ (transcribe_file env2 fsb p).2.2 = [(output_path (basename p), t2)]
    ∧ ∀ (fs0 : FS) (q : Path),
        applyWrites fs0
            ((transcribe_file env1 fsa p).2.2 ++ (transcribe_file env2 fsb p).2.2) q
          = if q = output_path (basename p) then some t2 else fs0 q := by
  have ha := transcribe_file_success env1 fsa p b1 r1 t1 h1 h2 h3 h4
  have hb := transcribe_file_success env2 fsb p b2 r2 t2 h5 h6 h7 h8
  refine ⟨by rw [ha], by rw [hb], ?_⟩
  intro fs0 q
  rw [ha, hb]
  by_cases hq : q = output_path (basename p)
  · simp [applyWrites, hq]
  · simp [applyWrites, hq]

/-- Witness for C7: reprocessing `sample.wav` writes the same path twice;
after both runs that path holds the second transcript and an unrelated path
is untouched. -/
theorem C7_output_path_idempotent_witness :
    (transcribe_file okEnv sampleFS sampleWav).2.2
      = [(output_path (basename sampleWav), "hello world".data)]
    ∧ applyWrites (fun _ => none)
        ((transcribe_file okEnv sampleFS sampleWav).2.2
          ++ (transcribe_file okEnv sampleFS sampleWav).2.2)
        (output_path (basename sampleWav))
      = if output_path (basename sampleWav) = output_path (basename sampleWav)
        then some "hello world".data else none :=
  ⟨(C7_output_path_idempotent okEnv okEnv sampleFS sampleFS sampleWav
      "RIFFdata".data "RIFFdata".data
      ⟨some "hello world".data⟩ ⟨some "hello world".data⟩
      "hello world".data "hello world".data
      (by decide) rfl rfl rfl (by decide) rfl rfl rfl).1,
   (C7_output_path_idempotent okEnv okEnv sampleFS sampleFS sampleWav
      "RIFFdata".data "RIFFdata".data
      ⟨some "hello world".data⟩ ⟨some "hello world".data⟩
      "hello world".data "hello world".data
      (by decide) rfl rfl rfl (by decide) rfl rfl rfl).2.2
     (fun _ => none) (output_path (basename sampleWav))⟩

/-- C8: events are handled strictly in delivery order — for two back-to-back
accepted creation events the call trace of the pair is exactly the first
file's buffer followed by the second file's buffer, and the outcome list is
the first handler's records followed by the second handler's records (the
first pipeline, its client call included, completes before the second
starts). -/
theorem C8_serialized_in_order (env : Env) (fs : FS) (a b : Event)
    (bufA bufB : Bytes)
    (h1 : a.is_directory = false) (h2 : accepts (basename a.src_path) = true)
    (h3 : fs a.src_path = some bufA)
    (h4 : b.is_directory = false) (h5 : accepts (basename b.src_path) = true)
    (h6 : applyWrites fs (on_created env fs a).writes b.src_path = some bufB) :
    (runEvents env fs [a, b]).clientCalls = [bufA, bufB]
    ∧ (runEvents env fs [a, b]).outcomes
        = (on_created env fs a).outcomes
          ++ (on_created env (applyWrites fs (on_created env fs a).writes) b).outcomes := by
  constructor
  · have ha2 : (on_created env fs a).clientCalls = [bufA] := by
      rw [on_created_accepted env fs a h1 h2]
      exact transcribe_file_calls env fs a.src_path bufA h3
    have hb2 : (on_created env (applyWrites fs (on_created env fs a).writes)
        b).clientCalls = [bufB] := by
      rw [on_created_accepted env (applyWrites fs (on_created env fs a).writes)
        b h4 h5]
      exact transcribe_file_calls env
        (applyWrites fs (on_created env fs a).writes) b.src_path bufB h6
    show (on_created env fs a).clientCalls
        ++ ((on_created env (applyWrites fs (on_created env fs a).writes) b).clientCalls
          ++ []) = [bufA, bufB]
    rw [hb2, ha2]
    rfl
  · show (on_created env fs a).outcomes
        ++ ((on_created env (applyWrites fs (on_created env fs a).writes) b).outcomes
          ++ []) = _
    rw [List.append_nil]

/-- Witness for C8: with the recording stub, `a.wav`-style event
`sample.wav` is fully handled (client called on its bytes) before
`quiet.wav`, and the trace lists the two buffers in that order. -/
theorem C8_serialized_in_order_witness :
    (runEvents errEnv sampleFS
        [⟨false, sampleWav⟩, ⟨false, quietWav⟩]).clientCalls
      = ["RIFFdata".data, "RIFFquiet".data]
    ∧ (runEvents errEnv sampleFS
          [⟨false, sampleWav⟩, ⟨false, quietWav⟩]).outcomes
        = (on_created errEnv sampleFS ⟨false, sampleWav⟩).outcomes
          ++ (on_created errEnv
                (applyWrites sampleFS
                  (on_created errEnv sampleFS ⟨false, sampleWav⟩).writes)
                ⟨false, quietWav⟩).outcomes :=
  C8_serialized_in_order errEnv sampleFS ⟨false, sampleWav⟩ ⟨false, quietWav⟩
    "RIFFdata".data "RIFFquiet".data rfl (by decide) (by decide)
    rfl (by decide) (by decide)

/-- C9: a filename consisting solely of an allowed extension, such as the
dotfile `.mp3`, splits into the whole name as stem and an empty extension,
so the event is rejected and reported Ignored. -/
theorem C9_dotfile_rejected :
    splitext ".mp3".data = (".mp3".data, ([] : List Char))
    ∧ ∀ (env : Env) (fs : FS),
        on_created env fs ⟨false, "/tmp/audio_to_process/.mp3".data⟩
          = ⟨[⟨"/tmp/audio_to_process/.mp3".data, Status.ignored, []⟩], [], []⟩ := by
  refine ⟨by decide, ?_⟩
  intro env fs
  exact on_created_rejected env fs ⟨false, "/tmp/audio_to_process/.mp3".data⟩
    rfl (by decide)

/-- C10: a directory-creation event returns immediately with no outcome
record at all — not even Ignored — and no client call or write; in contrast
a rejected file such as `notes.txt` still gets an Ignored record. -/
theorem C10_directory_event_silent :
    (∀ (env : Env) (fs : FS) (p : Path),
        on_created env fs ⟨true, p⟩ = ⟨[], [], []⟩)
    ∧ ∀ (env : Env) (fs : FS),
        on_created env fs ⟨false, notesTxt⟩
          = ⟨[⟨notesTxt, Status.ignored, []⟩], [], []⟩ := by
  refine ⟨fun env fs p => rfl, fun env fs => ?_⟩
  exact on_created_rejected env fs ⟨false, notesTxt⟩ rfl (by decide)

end AudioMonitor
